import Mathlib

/-!
Verification of the MySQL MCP web server (src/mysql_mcp_server/main.py).

The program is a small authenticated HTTP gateway that dispatches a JSON
verb protocol (list_resources / read / execute) to SQL operations.  The
embedding below follows the python source function by function:

* `verify_api_key` models the bearer-token dependency;
* `get_db_connection` models the per-call connection attempt;
* `handle_request` models the verb dispatcher;
* `process_query` models the POST /query endpoint handler;
* `health_check` models the GET /health endpoint handler.

The database engine and the HTTP framework are external collaborators.
They are modelled by an environment `DBEnv` (an oracle for connection
attempts, SHOW TABLES, table contents and arbitrary statements; the
read branch uses MySQL LIMIT semantics, taking the first 100 rows of
the named table) and by `httpStatusOf` (the framework sends status 200
for any value a handler returns, and the carried status for a raised
HTTPException).  Every effect on the database is recorded in an event
trace so that claims about connections never being opened, statements
never being sent, and connections being closed can be stated.
-/

namespace MysqlMcp

/-- Row of a dictionary cursor: a mapping from column names to values. -/
abbrev Row := List (String × String)

/-- Occurrence of one character list inside another as a contiguous
run: either at the front or somewhere in the tail. -/
def occursIn : List Char → List Char → Bool
  | n, [] => n.isEmpty
  | n, c :: t => List.isPrefixOf n (c :: t) || occursIn n t

/-- Python substring test `needle in hay`. -/
def pyIn (needle hay : String) : Bool :=
  occursIn needle.toList hay.toList

/-- Python str.lower over the character list of a string (the
statements screened here are ASCII SQL text, where the two agree). -/
def pyLower (s : String) : String :=
  ⟨s.data.map Char.toLower⟩

/-- Python rendering of an optional string inside an f-string:
`None` renders as the literal text None, a string renders as itself. -/
def pyStrOpt : Option String → String
  | none => "None"
  | some s => s

/-- Exceptions that can cross function boundaries in the program:
a fastapi HTTPException carrying a status and a detail, or a
mysql.connector.Error carrying a driver message. -/
inductive PyExc where
  | httpExc (status : Nat) (detail : String)
  | sqlExc (msg : String)
deriving DecidableEq, Repr

/-- Python str of an exception, as the health endpoint renders it:
str of an HTTPException is the status, a colon and the detail; str of a
driver error is its message. -/
def pyStrExc : PyExc → String
  | .httpExc s d => toString s ++ ": " ++ d
  | .sqlExc m => m

/-- The dict request_data handed to the dispatcher: the verb field and
the parameters field, each possibly missing. -/
structure Params where
  name : Option String := none
  statement : Option String := none
deriving DecidableEq, Repr

/-- Request envelope content, the value of the mcp_request key. -/
structure ReqData where
  verb : Option String := none
  parameters : Option Params := none
deriving DecidableEq, Repr

/-- The four response shapes the dispatcher can build:
resources (name and description pairs), data rows, result rows,
or a soft error message. -/
inductive Resp where
  | resources (items : List (String × String))
  | data (rows : List Row)
  | results (rows : List Row)
  | error (msg : String)
deriving DecidableEq, Repr

/-- Test whether the response dict contains the error key, as the
python expression `"error" in response` does: the four shapes are
disjoint, so only the error shape has it. -/
def respErr : Resp → Option String
  | .error m => some m
  | _ => none

/-- Observable events at the database boundary, in order:
a connection being opened, a statement being sent, a connection being
closed. -/
inductive DBEvent where
  | connOpen
  | stmtSent (s : String)
  | connClose
deriving DecidableEq, Repr

/-- Number of connection openings in a trace. -/
def opens : List DBEvent → Nat
  | [] => 0
  | .connOpen :: t => opens t + 1
  | _ :: t => opens t

/-- Number of connection closings in a trace. -/
def closes : List DBEvent → Nat
  | [] => 0
  | .connClose :: t => closes t + 1
  | _ :: t => closes t

/-- External database oracle for one handler invocation.
connectResult is none when a connection can be opened and carries the
driver message otherwise; showTables is the outcome of SHOW TABLES;
tableRows gives the rows of each existing table (none means the SELECT
fails with an unknown-table error); runStmt is the driver outcome of an
arbitrary statement sent by the execute branch. -/
structure DBEnv where
  connectResult : Option String
  showTables : Except String (List String)
  tableRows : String → Option (List Row)
  runStmt : String → Except String (List Row)

/-- Model of get_db_connection: one connection attempt; on driver
failure it logs and raises HTTPException 500 with the driver message in
the detail. -/
def get_db_connection (env : DBEnv) : Except PyExc Unit :=
  match env.connectResult with
  | none => .ok ()
  | some err => .error (.httpExc 500 ("Database connection error: " ++ err))

/-- Driver message used when a SELECT names a table that does not
exist. -/
def unknownTableMsg (name : String) : String :=
  "Table `" ++ name ++ "` does not exist"

/-- The exact SQL text the read branch interpolates and sends. -/
def readQuery (name : String) : String :=
  "SELECT * FROM `" ++ name ++ "` LIMIT 100;"

/-- The keyword screen of the execute branch, exactly the python
condition: any of the four words as a substring of the lowercased
statement text. -/
def hasForbiddenKeyword (statement : String) : Bool :=
  pyIn "delete" (pyLower statement) || pyIn "drop" (pyLower statement)
    || pyIn "update" (pyLower statement) || pyIn "insert" (pyLower statement)

/-- Model of handle_request, the verb dispatcher.  Returns the python
return value (or the exception it propagates) together with the trace
of database events of the invocation.  Branch by branch:

* list_resources: connect, send SHOW TABLES, build the resources list,
  close.  A query-time driver error propagates before the close lines
  run, leaving the connection open.
* read: missing or empty name is a soft error before any connection;
  otherwise connect, send SELECT with the name interpolated and LIMIT
  100 (modelled as taking the first 100 rows of the table, or an
  unknown-table driver error that propagates before the close lines
  run).
* execute: missing or empty statement is a soft error; a statement
  containing a forbidden keyword is a soft error, both before any
  connection; otherwise connect and send the statement inside
  try/except/finally: a driver error becomes a soft SQL Error result
  and the finally block closes cursor and connection on both paths.
* any other verb: a soft unsupported-verb error, no connection. -/
def handle_request (request_data : ReqData) (env : DBEnv) :
    Except PyExc Resp × List DBEvent :=
  let verb := request_data.verb
  if verb = some "list_resources" then
    match get_db_connection env with
    | .error e => (.error e, [])
    | .ok _ =>
      match env.showTables with
      | .error m => (.error (.sqlExc m), [.connOpen, .stmtSent "SHOW TABLES;"])
      | .ok tables =>
        (.ok (.resources (tables.map (fun t => (t, "Table: " ++ t)))),
          [.connOpen, .stmtSent "SHOW TABLES;", .connClose])
  else if verb = some "read" then
    let table_name := (request_data.parameters.getD {}).name
    if table_name.getD "" = "" then
      (.ok (.error "Table name is required for read verb."), [])
    else
      let name := table_name.getD ""
      match get_db_connection env with
      | .error e => (.error e, [])
      | .ok _ =>
        match env.tableRows name with
        | none =>
          (.error (.sqlExc (unknownTableMsg name)),
            [.connOpen, .stmtSent (readQuery name)])
        | some rows =>
          (.ok (.data (rows.take 100)),
            [.connOpen, .stmtSent (readQuery name), .connClose])
  else if verb = some "execute" then
    let statement := (request_data.parameters.getD {}).statement
    if statement.getD "" = "" then
      (.ok (.error "SQL statement is required for execute verb."), [])
    else
      let s := statement.getD ""
      if hasForbiddenKeyword s then
        (.ok (.error "Only SELECT statements are allowed for security reasons."), [])
      else
        match get_db_connection env with
        | .error e => (.error e, [])
        | .ok _ =>
          match env.runStmt s with
          | .ok results =>
            (.ok (.results results), [.connOpen, .stmtSent s, .connClose])
          | .error err =>
            (.ok (.error ("SQL Error: " ++ err)),
              [.connOpen, .stmtSent s, .connClose])
  else
    (.ok (.error ("Unsupported verb: " ++ pyStrOpt verb)), [])

/-- Model of verify_api_key: the dependency receives the bearer
credentials when present; it raises HTTPException 401 when they are
absent or differ from the configured secret. -/
def verify_api_key (creds : Option String) (apiKey : String) :
    Except PyExc String :=
  match creds with
  | none => .error (.httpExc 401 "Invalid API key")
  | some c =>
    if c ≠ apiKey then .error (.httpExc 401 "Invalid API key")
    else .ok c

/-- What the POST /query handler hands back to the framework: a
returned response dict, a returned HTTPException object (a return
statement, not a raise), or a raised HTTPException. -/
inductive HandlerOutcome where
  | retResp (r : Resp)
  | retExc (status : Nat) (detail : String)
  | raised (status : Nat) (detail : String)
deriving DecidableEq, Repr

/-- Framework mapping from a handler outcome to the HTTP status of the
response: any returned value is sent with status 200 (a returned
HTTPException object is just serialized into the body, its stored
status is not applied); a raised HTTPException produces a response with
its carried status. -/
def httpStatusOf : HandlerOutcome → Nat
  | .retResp _ => 200
  | .retExc _ _ => 200
  | .raised s _ => s

/-- Model of process_query, the POST /query endpoint.  The
verify_api_key dependency runs first; on its failure the handler body
never runs.  Then the dispatcher runs on the parsed body; if its result
dict has the error key the handler returns (does not raise) an
HTTPException with status 400 and that message; otherwise it returns
the result.  A propagating HTTPException is re-raised; any other
exception is logged and replaced by a raised HTTPException 500 with a
generic message. -/
def process_query (creds : Option String) (apiKey : String)
    (body : ReqData) (env : DBEnv) : HandlerOutcome × List DBEvent :=
  match verify_api_key creds apiKey with
  | .error (.httpExc s d) => (.raised s d, [])
  | .error (.sqlExc _) => (.raised 500 "An internal server error occurred.", [])
  | .ok _ =>
    match handle_request body env with
    | (.ok resp, tr) =>
      match respErr resp with
      | some msg => (.retExc 400 msg, tr)
      | none => (.retResp resp, tr)
    | (.error (.httpExc s d), tr) => (.raised s d, tr)
    | (.error (.sqlExc _), tr) =>
      (.raised 500 "An internal server error occurred.", tr)

/-- Body of the health endpoint response. -/
structure HealthResp where
  status : String
  database_connection : String
  detail : Option String
deriving DecidableEq, Repr

/-- Model of health_check, the GET /health endpoint: it attempts to
open a connection and closes it at once, reporting ok; any exception is
caught and reported as an error body.  The handler always returns a
value, never raises. -/
def health_check (env : DBEnv) : Except PyExc HealthResp × List DBEvent :=
  match get_db_connection env with
  | .ok _ =>
    (.ok { status := "ok", database_connection := "successful", detail := none },
      [.connOpen, .connClose])
  | .error e =>
    (.ok { status := "error", database_connection := "failed",
           detail := some (pyStrExc e) }, [])

/-- Framework status of a handler that finished with this outcome: 200
for a returned value, the carried status for a raised HTTPException,
500 for any other exception reaching the framework. -/
def statusOfResult {α : Type} : Except PyExc α → Nat
  | .ok _ => 200
  | .error (.httpExc s _) => s
  | .error (.sqlExc _) => 500

/-- JSON rendering of a string value. -/
def encodeStr (s : String) : String := "\"" ++ s ++ "\""

/-- JSON rendering of an object from already rendered members. -/
def encodeObj (members : List String) : String :=
  "\x7b" ++ String.intercalate ", " members ++ "\x7d"

/-- JSON rendering of an array from already rendered elements. -/
def encodeArr (elems : List String) : String :=
  "[" ++ String.intercalate ", " elems ++ "]"

/-- JSON rendering of one row mapping. -/
def encodeRow (r : Row) : String :=
  encodeObj (r.map (fun p => encodeStr p.1 ++ ": " ++ encodeStr p.2))

/-- JSON rendering of a dispatcher response dict. -/
def encodeResp : Resp → String
  | .resources items =>
    encodeObj [encodeStr "resources" ++ ": " ++
      encodeArr (items.map (fun it =>
        encodeObj [encodeStr "name" ++ ": " ++ encodeStr it.1,
                   encodeStr "description" ++ ": " ++ encodeStr it.2]))]
  | .data rows =>
    encodeObj [encodeStr "data" ++ ": " ++ encodeArr (rows.map encodeRow)]
  | .results rows =>
    encodeObj [encodeStr "results" ++ ": " ++ encodeArr (rows.map encodeRow)]
  | .error m =>
    encodeObj [encodeStr "error" ++ ": " ++ encodeStr m]

/-- JSON rendering of a dispatcher outcome: the response body on
normal return, the exception text otherwise. -/
def encodeOutcome : Except PyExc Resp → String
  | .ok r => encodeResp r
  | .error e => pyStrExc e

/-- Request shorthand for the list_resources verb. -/
def listReq : ReqData := { verb := some "list_resources" }

/-- Request shorthand for the read verb with a table name. -/
def readReq (n : String) : ReqData :=
  { verb := some "read", parameters := some { name := some n } }

/-- Request shorthand for the execute verb with a statement. -/
def execReq (s : String) : ReqData :=
  { verb := some "execute", parameters := some { statement := some s } }

/-- Sample table contents for concrete evaluations. -/
def sampleRows : List Row :=
  [[("id", "1"), ("name", "alice")], [("id", "2"), ("name", "bob")]]

/-- Concrete healthy environment: connecting succeeds, one table named
users exists, any other SELECT target is unknown, and every raw
statement fails with a driver message echoing it. -/
def envEx : DBEnv where
  connectResult := none
  showTables := .ok ["users"]
  tableRows := fun n => if n = "users" then some sampleRows else none
  runStmt := fun s =>
    if s = "SELECT 1;" then .ok [[("1", "1")]]
    else .error ("You have an error in your SQL near: " ++ s)

/-- Concrete environment whose SHOW TABLES fails at query time. -/
def envShowFail : DBEnv where
  connectResult := none
  showTables := .error "server has gone away"
  tableRows := fun _ => none
  runStmt := fun _ => .error "server has gone away"

/-- Concrete environment in which the connection attempt itself
fails. -/
def envDown : DBEnv where
  connectResult := some "db down"
  showTables := .error "db down"
  tableRows := fun _ => none
  runStmt := fun _ => .error "db down"

/-- Claim C1.  The gateway maps a dispatcher result carrying the error
key to an HTTP 400 response, and any other result to a 200 with the
result verbatim.  The first half fails on the code: process_query
returns the HTTPException object instead of raising it, so the
framework serializes the object into the body of a response whose
status is the default 200.  This theorem evaluates the endpoint at an
authorized request with an unsupported verb (a soft dispatcher error):
the outcome is the returned exception object and its HTTP status is
200, not 400.  The second half holds: at an authorized read request
the result is returned verbatim with status 200. -/
theorem c1_error_result_sent_as_200 :
    (process_query (some "secret") "secret" { verb := some "bogus" } envEx).1
      = .retExc 400 "Unsupported verb: bogus"
    ∧ httpStatusOf
        (process_query (some "secret") "secret" { verb := some "bogus" } envEx).1 = 200
    ∧ (process_query (some "secret") "secret" (readReq "users") envEx).1
      = .retResp (.data (sampleRows.take 100))
    ∧ httpStatusOf
        (process_query (some "secret") "secret" (readReq "users") envEx).1 = 200 :=
  ⟨rfl, rfl, rfl, rfl⟩

/-- Claim C2, counterexample.  The claim says every opened connection
is closed exactly once on every path, including a query raising, for
all three verbs.  On a read of a table the database does not have, the
dispatcher opens a connection, the SELECT raises, the exception
propagates, and no close event ever happens: the connection is left
open. -/
theorem c2_counterexample :
    opens (handle_request (readReq "missing") envEx).2 = 1
    ∧ closes (handle_request (readReq "missing") envEx).2 = 0
    ∧ (handle_request (readReq "missing") envEx).1
        = .error (.sqlExc (unknownTableMsg "missing")) :=
  ⟨rfl, rfl, rfl⟩

/-- Claim C2, as amended.  Whenever the dispatcher returns normally
(success shapes and soft errors, including the execute branch where a
query-time driver error is caught by try/finally), every connection it
opened is closed exactly once, and it opens at most one; but when an
exception propagates (from a failed connection attempt nothing was
opened, and from a query-time error in list_resources or read the
opened connection is left open), no close ever happens. -/
theorem c2_amended_discipline (req : ReqData) (env : DBEnv)
    (res : Except PyExc Resp) (tr : List DBEvent)
    (h : handle_request req env = (res, tr)) :
    (∀ r, res = .ok r → closes tr = opens tr ∧ opens tr ≤ 1)
    ∧ (∀ e, res = .error e → closes tr = 0) := by
  simp only [handle_request, get_db_connection] at h
  repeat' split at h
  all_goals injection h with h1 h2
  all_goals subst h1
  all_goals subst h2
  all_goals refine ⟨fun r hr => ?_, fun e he => ?_⟩
  all_goals simp_all [opens, closes]

/-- Witness for the amended claim C2: on a keyword-clean execute whose
statement the driver rejects, the trace the dispatcher actually
produces is balanced. -/
theorem c2_amended_witness :
    closes [DBEvent.connOpen, DBEvent.stmtSent "select junk", DBEvent.connClose]
      = opens [DBEvent.connOpen, DBEvent.stmtSent "select junk", DBEvent.connClose]
    ∧ opens [DBEvent.connOpen, DBEvent.stmtSent "select junk", DBEvent.connClose] ≤ 1 :=
  (c2_amended_discipline (execReq "select junk") envEx _ _ rfl).1
    (Resp.error "SQL Error: You have an error in your SQL near: select junk") rfl

/-- Claim C3.  Any execute request whose non-empty statement text
contains one of the four blocked words as a substring of its lowercased
text is answered with the fixed rejection message; the empty trace
shows no connection is opened and the statement is never sent. -/
theorem c3_keyword_screen_blocks (env : DBEnv) (s k : String)
    (hs : s ≠ "")
    (hk : k ∈ ["delete", "drop", "update", "insert"])
    (hin : pyIn k (pyLower s) = true) :
    handle_request (execReq s) env
      = (.ok (.error "Only SELECT statements are allowed for security reasons."), []) := by
  have hbad : hasForbiddenKeyword s = true := by
    simp only [List.mem_cons, List.mem_singleton, List.not_mem_nil, or_false] at hk
    rcases hk with h | h | h | h <;> subst h <;>
      simp [hasForbiddenKeyword, hin]
  simp [handle_request, execReq, hs, hbad]

/-- Witness for claim C3 at a concrete blocked statement. -/
theorem c3_witness :
    handle_request (execReq "DROP TABLE users;") envEx
      = (.ok (.error "Only SELECT statements are allowed for security reasons."), []) :=
  c3_keyword_screen_blocks envEx "DROP TABLE users;" "drop"
    (by decide) (by decide) (by decide)

/-- Claim C4.  A query-time driver error in the execute branch is
caught locally and becomes the soft SQL Error result while the finally
block still closes cursor and connection (the trace ends with the
close event); the same kind of error in list_resources or in read is
not caught and propagates as an exception. -/
theorem c4_error_scoping (env : DBEnv) (hconn : env.connectResult = none) :
    (∀ s m, s ≠ "" → hasForbiddenKeyword s = false → env.runStmt s = .error m →
      handle_request (execReq s) env
        = (.ok (.error ("SQL Error: " ++ m)), [.connOpen, .stmtSent s, .connClose]))
    ∧ (∀ m, env.showTables = .error m →
      handle_request listReq env
        = (.error (.sqlExc m), [.connOpen, .stmtSent "SHOW TABLES;"]))
    ∧ (∀ n, n ≠ "" → env.tableRows n = none →
      handle_request (readReq n) env
        = (.error (.sqlExc (unknownTableMsg n)),
           [.connOpen, .stmtSent (readQuery n)])) := by
  refine ⟨fun s m hs hk hrun => ?_, fun m hshow => ?_, fun n hn hrows => ?_⟩ <;>
    simp [handle_request, execReq, listReq, readReq, get_db_connection, hconn, *]

/-- Witness for claim C4 at concrete inputs to all three branches. -/
theorem c4_witness :
    handle_request (execReq "select junk") envEx
      = (.ok (.error "SQL Error: You have an error in your SQL near: select junk"),
         [.connOpen, .stmtSent "select junk", .connClose])
    ∧ handle_request listReq envShowFail
      = (.error (.sqlExc "server has gone away"),
         [.connOpen, .stmtSent "SHOW TABLES;"])
    ∧ handle_request (readReq "missing") envEx
      = (.error (.sqlExc (unknownTableMsg "missing")),
         [.connOpen, .stmtSent (readQuery "missing")]) :=
  ⟨(c4_error_scoping envEx rfl).1 "select junk"
      "You have an error in your SQL near: select junk" (by decide) (by decide) rfl,
   (c4_error_scoping envShowFail rfl).2.1 "server has gone away" rfl,
   (c4_error_scoping envEx rfl).2.2 "missing" (by decide) rfl⟩

/-- Claim C5.  Whenever the bearer credentials are absent or differ
from the configured secret, the endpoint raises 401; the result is the
same for every body and every database environment (so the body is
never interpreted and the dispatcher never runs) and the trace is
empty (so the database is never touched). -/
theorem c5_unauthorized (creds : Option String) (apiKey : String)
    (body : ReqData) (env : DBEnv)
    (h : creds ≠ some apiKey) :
    process_query creds apiKey body env = (.raised 401 "Invalid API key", []) := by
  cases creds with
  | none => rfl
  | some c =>
    have hc : c ≠ apiKey := fun e => h (by rw [e])
    simp [process_query, verify_api_key, hc]

/-- Witness for claim C5: an absent token and a wrong token. -/
theorem c5_witness :
    process_query none "secret" (readReq "users") envEx
      = (.raised 401 "Invalid API key", [])
    ∧ process_query (some "wrong") "secret" (readReq "users") envEx
      = (.raised 401 "Invalid API key", []) :=
  ⟨c5_unauthorized none "secret" (readReq "users") envEx (by decide),
   c5_unauthorized (some "wrong") "secret" (readReq "users") envEx (by decide)⟩

/-- Claim C6.  A read of an existing table with a non-empty name
returns the data shape holding exactly the first 100 rows of the table
(LIMIT 100 in default engine order), so the row count is at most
100. -/
theorem c6_read_cap (env : DBEnv) (n : String) (rows : List Row)
    (hn : n ≠ "") (hconn : env.connectResult = none)
    (hrows : env.tableRows n = some rows) :
    handle_request (readReq n) env
      = (.ok (.data (rows.take 100)),
         [.connOpen, .stmtSent (readQuery n), .connClose])
    ∧ (rows.take 100).length ≤ 100 := by
  constructor
  · simp [handle_request, readReq, hn, get_db_connection, hconn, hrows]
  · simp [List.length_take]

/-- Witness for claim C6 at the sample table. -/
theorem c6_witness :
    handle_request (readReq "users") envEx
      = (.ok (.data (sampleRows.take 100)),
         [.connOpen, .stmtSent (readQuery "users"), .connClose])
    ∧ (sampleRows.take 100).length ≤ 100 :=
  c6_read_cap envEx "users" sampleRows (by decide) rfl rfl

/-- Claim C7.  The dispatcher half of the claim holds: a read request
with the name missing or empty yields exactly the required-name soft
error with no database event.  The gateway half fails on the code for
the same reason as claim C1: process_query returns the HTTPException
object instead of raising it, so the HTTP status of the response is
200, not the 400 the claim states. -/
theorem c7_missing_name :
    handle_request { verb := some "read" } envEx
      = (.ok (.error "Table name is required for read verb."), [])
    ∧ handle_request { verb := some "read", parameters := some { name := some "" } } envEx
      = (.ok (.error "Table name is required for read verb."), [])
    ∧ (process_query (some "secret") "secret" { verb := some "read" } envEx).1
      = .retExc 400 "Table name is required for read verb."
    ∧ httpStatusOf
        (process_query (some "secret") "secret" { verb := some "read" } envEx).1 = 200 :=
  ⟨rfl, rfl, rfl, rfl⟩

/-- Claim C8.  The health endpoint always returns a value, so its HTTP
status is always 200; when a connection can be opened the body is the
ok shape and the trace shows the connection opened and immediately
closed; when it cannot, the body is the error shape with a detail and
nothing was opened. -/
theorem c8_health (env : DBEnv) :
    statusOfResult (health_check env).1 = 200
    ∧ (env.connectResult = none →
        health_check env
          = (.ok { status := "ok", database_connection := "successful",
                   detail := none }, [.connOpen, .connClose]))
    ∧ (∀ m, env.connectResult = some m →
        ∃ d, health_check env
          = (.ok { status := "error", database_connection := "failed",
                   detail := some d }, [])) := by
  refine ⟨?_, fun h => ?_, fun m h => ?_⟩
  · cases hc : env.connectResult <;>
      simp [health_check, get_db_connection, hc, statusOfResult]
  · simp [health_check, get_db_connection, h]
  · exact ⟨pyStrExc (.httpExc 500 ("Database connection error: " ++ m)),
      by simp [health_check, get_db_connection, h]⟩

/-- Witness for claim C8 at a healthy and at an unreachable
database. -/
theorem c8_health_witness :
    health_check envEx
      = (.ok { status := "ok", database_connection := "successful",
               detail := none }, [.connOpen, .connClose])
    ∧ ∃ d, health_check envDown
      = (.ok { status := "error", database_connection := "failed",
               detail := some d }, []) :=
  ⟨(c8_health envEx).2.1 rfl, (c8_health envDown).2.2 "db down" rfl⟩

/-- Claim C9.  The dispatcher is a function of the request and the
database environment alone, so two identical read or keyword-clean
execute requests evaluated against the same unchanged environment
produce byte-identical JSON renderings of their results. -/
theorem c9_deterministic (r1 r2 : ReqData) (e1 e2 : DBEnv)
    (hr : r1 = r2) (he : e1 = e2)
    (_hro : r1.verb = some "read"
      ∨ (r1.verb = some "execute"
          ∧ hasForbiddenKeyword ((r1.parameters.getD {}).statement.getD "") = false)) :
    encodeOutcome (handle_request r1 e1).1 = encodeOutcome (handle_request r2 e2).1 := by
  subst hr; subst he; rfl

/-- Witness for claim C9 at a concrete repeated read. -/
theorem c9_witness :
    encodeOutcome (handle_request (readReq "users") envEx).1
      = encodeOutcome (handle_request (readReq "users") envEx).1 :=
  c9_deterministic (readReq "users") (readReq "users") envEx envEx rfl rfl (Or.inl rfl)

/-- Claim C10.  Any verb that is not exactly one of the three
supported strings falls to the catch-all branch, which renders the
verb value the way a python f-string does, so an absent verb produces
the message Unsupported verb: None; the trace is empty, so no
connection is opened. -/
theorem c10_unsupported (v : Option String) (p : Option Params) (env : DBEnv)
    (h1 : v ≠ some "list_resources") (h2 : v ≠ some "read")
    (h3 : v ≠ some "execute") :
    handle_request { verb := v, parameters := p } env
      = (.ok (.error ("Unsupported verb: " ++ pyStrOpt v)), [])
    ∧ pyStrOpt none = "None" := by
  refine ⟨?_, rfl⟩
  simp [handle_request, h1, h2, h3]

/-- Witness for claim C10 at an envelope with no verb field. -/
theorem c10_witness :
    handle_request { verb := none } envEx
      = (.ok (.error "Unsupported verb: None"), [])
    ∧ pyStrOpt none = "None" :=
  c10_unsupported none none envEx (by decide) (by decide) (by decide)

end MysqlMcp
